import Mathlib

/-!
Shallow embedding of the EcoHub smart-home simulator (devices.py and main.py).

Modelling conventions:
* Python floats are modelled as rationals, Python ints as Int.
* Python dicts (the snapshot payloads) are association lists in insertion
  order; dict.get is first-match lookup.
* Code that can raise (indexing a missing key, comparing a non-number) is
  modelled with Except Unit.
* The call to random.random() inside analytic_engine is modelled by passing
  the drawn number explicitly as an extra argument.
* time.time() is modelled by passing the current time explicitly.
-/

/-- A Python value as it appears in a snapshot payload. -/
inductive PyVal where
  | int (n : Int)
  | float (q : ℚ)
  | bool (b : Bool)
  | str (s : String)
  | noneVal
deriving DecidableEq

/-- Python truthiness of a payload value. -/
def PyVal.truthy : PyVal → Bool
  | PyVal.int n => n != 0
  | PyVal.float q => q != 0
  | PyVal.bool b => b
  | PyVal.str s => s != ""
  | PyVal.noneVal => false

/-- A snapshot payload: a Python dict in insertion order. -/
abbrev Payload := List (String × PyVal)

/-- dict.get with no default: first matching key, or None. -/
def Payload.get : Payload → String → Option PyVal
  | [], _ => Option.none
  | (k', v) :: rest, k => if k' = k then some v else Payload.get rest k

/-- Truthiness of the result of dict.get without a default
(a missing key gives Python None, which is falsy). -/
def truthyOpt : Option PyVal → Bool
  | Option.none => false
  | some v => PyVal.truthy v

/-- dict.get with a numeric default, followed by use of the result as a
number in a comparison or a sum.  A present non-numeric value makes the
surrounding Python expression raise, modelled as Except.error.
Python bools count as 0 and 1 in numeric context. -/
def Payload.getNum (p : Payload) (k : String) (dflt : ℚ) : Except Unit ℚ :=
  match Payload.get p k with
  | Option.none => Except.ok dflt
  | some (PyVal.int n) => Except.ok (n : ℚ)
  | some (PyVal.float q) => Except.ok q
  | some (PyVal.bool b) => Except.ok (if b then 1 else 0)
  | some _ => Except.error ()

/-- Indexing p[k] followed by numeric use: raises when the key is missing
or the value is not a number. -/
def Payload.getItemNum (p : Payload) (k : String) : Except Unit ℚ :=
  match Payload.get p k with
  | some (PyVal.int n) => Except.ok (n : ℚ)
  | some (PyVal.float q) => Except.ok q
  | some (PyVal.bool b) => Except.ok (if b then 1 else 0)
  | _ => Except.error ()

/-- devices.py, class SmartBulb.  The brightness field models the backing
attribute written by the constructor and read by the property getter. -/
structure SmartBulb where
  device_id : String
  name : String
  location : String
  device_type : String
  is_connected : Bool
  brightness : Int
  is_on : Bool

/-- SmartBulb constructor: writes the backing brightness field directly,
without the property setter. -/
def SmartBulb.init (device_id name location : String) (brightness : Int) :
    SmartBulb :=
  { device_id := device_id, name := name, location := location,
    device_type := "BULB", is_connected := false,
    brightness := brightness, is_on := false }

/-- The brightness property setter (integer input): in-range values are
stored, values above 100 are clamped to 100, values below 0 to 0. -/
def SmartBulb.set_brightness (b : SmartBulb) (value : Int) : SmartBulb :=
  if 0 ≤ value ∧ value ≤ 100 then { b with brightness := value }
  else if value > 100 then { b with brightness := 100 }
  else if value < 0 then { b with brightness := 0 }
  else b

/-- SmartBulb.execute_command: TOGGLE flips is_on, anything else is ignored. -/
def SmartBulb.execute_command (b : SmartBulb) (command : String) : SmartBulb :=
  if command = "TOGGLE" then { b with is_on := !b.is_on } else b

/-- devices.py, class SmartThermostat.  target_temp models the backing
attribute behind the target_temp property. -/
structure SmartThermostat where
  device_id : String
  name : String
  location : String
  device_type : String
  is_connected : Bool
  current_temp : ℚ
  target_temp : ℚ
  humidity : ℚ

/-- SmartThermostat constructor: writes the backing target_temp field
directly, without the property setter. -/
def SmartThermostat.init (device_id name location : String)
    (current_temp target_temp humidity : ℚ) : SmartThermostat :=
  { device_id := device_id, name := name, location := location,
    device_type := "THERMOSTAT", is_connected := false,
    current_temp := current_temp, target_temp := target_temp,
    humidity := humidity }

/-- The target_temp property setter: an in-range value is stored; an
out-of-range value is rejected and the previous value kept. -/
def SmartThermostat.set_target_temp (t : SmartThermostat) (value : ℚ) :
    SmartThermostat :=
  if 15 ≤ value ∧ value ≤ 30 then { t with target_temp := value } else t

/-- SmartThermostat.execute_command: TRIGGER_COOLING subtracts 1.0 from
current_temp, TRIGGER_HEATING adds 1.0, anything else is ignored. -/
def SmartThermostat.execute_command (t : SmartThermostat) (command : String) :
    SmartThermostat :=
  if command = "TRIGGER_COOLING" then
    { t with current_temp := t.current_temp - 1 }
  else if command = "TRIGGER_HEATING" then
    { t with current_temp := t.current_temp + 1 }
  else t

/-- devices.py, class SmartCamera.  battery_level models the backing
attribute behind the battery_level property. -/
structure SmartCamera where
  device_id : String
  name : String
  location : String
  device_type : String
  is_connected : Bool
  battery_level : Int
  last_snapshot : ℚ
  motion_detected : Bool

/-- SmartCamera constructor: writes the backing battery_level field
directly; a missing last_snapshot defaults to the creation time. -/
def SmartCamera.init (device_id name location : String) (battery_level : Int)
    (motion_detected : Bool) (last_snapshot : Option ℚ) (now : ℚ) :
    SmartCamera :=
  { device_id := device_id, name := name, location := location,
    device_type := "CAMERA", is_connected := false,
    battery_level := battery_level,
    last_snapshot := last_snapshot.getD now,
    motion_detected := motion_detected }

/-- The battery_level property setter: in-range values are stored, values
above 100 are clamped to 100, values below 0 to 0. -/
def SmartCamera.set_battery_level (c : SmartCamera) (value : Int) :
    SmartCamera :=
  if 0 ≤ value ∧ value ≤ 100 then { c with battery_level := value }
  else if value > 100 then { c with battery_level := 100 }
  else if value < 0 then { c with battery_level := 0 }
  else c

/-- SmartCamera.execute_command: TAKE_SNAPSHOT stores the current time in
last_snapshot; LOW_BATTERY_WARNING assigns 100 through the battery_level
property setter; anything else is ignored. -/
def SmartCamera.execute_command (c : SmartCamera) (command : String)
    (now : ℚ) : SmartCamera :=
  if command = "TAKE_SNAPSHOT" then { c with last_snapshot := now }
  else if command = "LOW_BATTERY_WARNING" then
    SmartCamera.set_battery_level c 100
  else c

/-- main.py, dataclass DeviceStatus: an immutable snapshot of device state. -/
structure DeviceStatus where
  device_id : String
  type : String
  timestamp : ℚ
  payload : Payload
deriving DecidableEq

/-- SmartDevice.send_update for a bulb: payload holds the non-identity
attributes in insertion order, leading underscores stripped. -/
def SmartBulb.send_update (b : SmartBulb) (now : ℚ) : DeviceStatus :=
  { device_id := b.device_id, type := b.device_type, timestamp := now,
    payload := [ ("brightness", PyVal.int b.brightness),
                 ("is_on", PyVal.bool b.is_on)] }

/-- SmartDevice.send_update for a thermostat. -/
def SmartThermostat.send_update (t : SmartThermostat) (now : ℚ) :
    DeviceStatus :=
  { device_id := t.device_id, type := t.device_type, timestamp := now,
    payload := [ ("current_temp", PyVal.float t.current_temp),
                 ("target_temp", PyVal.float t.target_temp),
                 ("humidity", PyVal.float t.humidity)] }

/-- SmartDevice.send_update for a camera. -/
def SmartCamera.send_update (c : SmartCamera) (now : ℚ) : DeviceStatus :=
  { device_id := c.device_id, type := c.device_type, timestamp := now,
    payload := [ ("battery_level", PyVal.int c.battery_level),
                 ("last_snapshot", PyVal.float c.last_snapshot),
                 ("motion_detected", PyVal.bool c.motion_detected)] }

/-- The three device variants of the system. -/
inductive Device where
  | bulb (b : SmartBulb)
  | thermostat (t : SmartThermostat)
  | camera (c : SmartCamera)

/-- Polymorphic send_update over the three variants. -/
def Device.send_update : Device → ℚ → DeviceStatus
  | Device.bulb b, now => SmartBulb.send_update b now
  | Device.thermostat t, now => SmartThermostat.send_update t now
  | Device.camera c, now => SmartCamera.send_update c now

/-- A device whose stored device_type tag is the one its constructor wrote.
Every device the program builds satisfies this, since nothing reassigns
device_type after construction. -/
def Device.well_typed : Device → Prop
  | Device.bulb b => b.device_type = "BULB"
  | Device.thermostat t => t.device_type = "THERMOSTAT"
  | Device.camera c => c.device_type = "CAMERA"

/-- main.py analytic_engine.  r models the value drawn by random.random()
in the bulb branch; the function has no other effect. -/
def analytic_engine (status : DeviceStatus) (r : ℚ) :
    Except Unit (Option String) :=
  let p := status.payload
  if status.type = "THERMOSTAT" then
    match Payload.getNum p "current_temp" 0, Payload.getNum p "target_temp" 0 with
    | Except.ok ct, Except.ok tt =>
        if ct > tt then Except.ok (some "TRIGGER_COOLING")
        else if ct < tt then Except.ok (some "TRIGGER_HEATING")
        else Except.ok Option.none
    | _, _ => Except.error ()
  else if status.type = "CAMERA" then
    match Payload.getNum p "battery_level" 100 with
    | Except.ok bl =>
        if bl < 10 then Except.ok (some "LOW_BATTERY_WARNING")
        else if truthyOpt (Payload.get p "motion_detected") then
          Except.ok (some "TAKE_SNAPSHOT")
        else Except.ok Option.none
    | _ => Except.error ()
  else if status.type = "BULB" ∧ r < (0.05 : ℚ) then
    Except.ok (some "TOGGLE")
  else Except.ok Option.none

/-- The reduce in run_analytics_pipeline: left fold of payload current_temp
over the thermostat statuses, raising on a missing or non-numeric entry. -/
def sum_temps : List DeviceStatus → ℚ → Except Unit ℚ
  | [], acc => Except.ok acc
  | s :: rest, acc =>
      match Payload.getItemNum s.payload "current_temp" with
      | Except.ok v => sum_temps rest (acc + v)
      | Except.error e => Except.error e

/-- The metrics step of run_analytics_pipeline: filter the snapshot batch
to thermostat statuses; with none present, report nothing; otherwise report
the mean current_temp. -/
def average_temp (statuses : List DeviceStatus) : Except Unit (Option ℚ) :=
  let thermos := statuses.filter (fun s => s.type == "THERMOSTAT")
  if thermos.isEmpty then Except.ok Option.none
  else
    match sum_temps thermos 0 with
    | Except.ok total => Except.ok (some (total / (thermos.length : ℚ)))
    | Except.error e => Except.error e

/-- The thermostats of a device list, in order. -/
def thermostats : List Device → List SmartThermostat
  | [] => []
  | Device.thermostat t :: rest => t :: thermostats rest
  | _ :: rest => thermostats rest

/-- The current_temp readings of the thermostats of a device list. -/
def thermoTemps (devices : List Device) : List ℚ :=
  (thermostats devices).map (fun t => t.current_temp)

/-- The fixed device roster built by main (now is the creation time the
camera constructors read). -/
def main_devices (now : ℚ) : List Device :=
  [ Device.bulb (SmartBulb.init "bulb_01" "Living Room Light" "Living Room" 80),
    Device.thermostat (SmartThermostat.init "term_01" "Bedroom Thermostat" "Bedroom" 23 22 40.0),
    Device.thermostat (SmartThermostat.init "term_02" "Living Room Thermostat" "Living Room" 20 22 60.2),
    Device.camera (SmartCamera.init "camera_01" "Front Gate Camera" "Front Gate" 78 true Option.none now),
    Device.camera (SmartCamera.init "camera_02" "Patio Camera" "Patio" 100 false Option.none now),
    Device.camera (SmartCamera.init "camera_03" "Garden Camera" "Back Garden" 99 false Option.none now),
    Device.camera (SmartCamera.init "camera_04" "Second Garden Camera" "Back Garden" 9 false Option.none now),
    Device.thermostat (SmartThermostat.init "term_03" "Second Floor Thermostat" "Hallway" 21 24 35.2),
    Device.bulb (SmartBulb.init "bulb_02" "Bedroom 1 Light" "Bedroom 1" 80),
    Device.bulb (SmartBulb.init "bulb_03" "Bedroom 2 Light" "Bedroom 2" 50),
    Device.bulb (SmartBulb.init "bulb_04" "Bathroom light" "Bathroom" 90),
    Device.bulb (SmartBulb.init "bulb_05" "Patio light" "Patio" 0),
    Device.bulb (SmartBulb.init "bulb_06" "Kitchen light" "Kitchen" 80)]

/-- The JSON document written as one line of history.log.  Number tokens
keep the Python int and float distinction, exactly as the rendered text
does (a float is rendered with a fraction part and parses back as a float,
an int without one and parses back as an int). -/
inductive Json where
  | null
  | bool (b : Bool)
  | int (n : Int)
  | float (q : ℚ)
  | str (s : String)
  | obj (fields : List (String × Json))

/-- json.dumps of one payload value. -/
def PyVal.toJson : PyVal → Json
  | PyVal.int n => Json.int n
  | PyVal.float q => Json.float q
  | PyVal.bool b => Json.bool b
  | PyVal.str s => Json.str s
  | PyVal.noneVal => Json.null

/-- json.loads of a payload value: objects never occur as payload values
in this schema, so they do not parse back into one. -/
def Json.toPyVal : Json → Option PyVal
  | Json.null => some PyVal.noneVal
  | Json.bool b => some (PyVal.bool b)
  | Json.int n => some (PyVal.int n)
  | Json.float q => some (PyVal.float q)
  | Json.str s => some (PyVal.str s)
  | Json.obj _ => Option.none

/-- Key lookup in a parsed JSON object. -/
def lookupField : List (String × Json) → String → Option Json
  | [], _ => Option.none
  | (k', v) :: rest, k => if k' = k then some v else lookupField rest k

/-- json.dumps of the log entry dict built by send_update, at the level of
the JSON document on the log line. -/
def dump_entry (s : DeviceStatus) : Json :=
  Json.obj
    [ ("device_id", Json.str s.device_id),
      ("type", Json.str s.type),
      ("timestamp", Json.float s.timestamp),
      ("payload", Json.obj (s.payload.map (fun kv => (kv.1, PyVal.toJson kv.2))))]

/-- Parsing the payload object of a log line back into a payload dict. -/
def parse_payload : List (String × Json) → Option Payload
  | [] => some []
  | (k, j) :: rest =>
      match Json.toPyVal j, parse_payload rest with
      | some v, some p => some ((k, v) :: p)
      | _, _ => Option.none

/-- json.loads of one log line, rebuilding the DeviceStatus fields. -/
def parse_entry (j : Json) : Option DeviceStatus :=
  match j with
  | Json.obj fields =>
      match lookupField fields "device_id", lookupField fields "type",
            lookupField fields "timestamp", lookupField fields "payload" with
      | some (Json.str did), some (Json.str ty), some (Json.float ts),
        some (Json.obj pf) =>
          match parse_payload pf with
          | some p => some { device_id := did, type := ty, timestamp := ts,
                             payload := p }
          | Option.none => Option.none
      | _, _, _, _ => Option.none
  | _ => Option.none

/-! Helper lemmas. -/

theorem set_brightness_range (b : SmartBulb) (v : Int) :
    0 ≤ (SmartBulb.set_brightness b v).brightness ∧
      (SmartBulb.set_brightness b v).brightness ≤ 100 := by
  unfold SmartBulb.set_brightness
  split_ifs <;> simp_all

theorem brightness_fold_range (b : SmartBulb) (vs : List Int)
    (h : 0 ≤ b.brightness ∧ b.brightness ≤ 100) :
    0 ≤ (vs.foldl SmartBulb.set_brightness b).brightness ∧
      (vs.foldl SmartBulb.set_brightness b).brightness ≤ 100 := by
  induction vs generalizing b with
  | nil => simpa using h
  | cons v rest ih =>
    simp only [List.foldl_cons]
    exact ih _ (set_brightness_range b v)

theorem set_battery_level_range (c : SmartCamera) (v : Int) :
    0 ≤ (SmartCamera.set_battery_level c v).battery_level ∧
      (SmartCamera.set_battery_level c v).battery_level ≤ 100 := by
  unfold SmartCamera.set_battery_level
  split_ifs <;> simp_all

theorem battery_fold_range (c : SmartCamera) (us : List Int)
    (h : 0 ≤ c.battery_level ∧ c.battery_level ≤ 100) :
    0 ≤ (us.foldl SmartCamera.set_battery_level c).battery_level ∧
      (us.foldl SmartCamera.set_battery_level c).battery_level ≤ 100 := by
  induction us generalizing c with
  | nil => simpa using h
  | cons u rest ih =>
    simp only [List.foldl_cons]
    exact ih _ (set_battery_level_range c u)

theorem set_target_temp_range (t : SmartThermostat) (v : ℚ)
    (h : 15 ≤ t.target_temp ∧ t.target_temp ≤ 30) :
    15 ≤ (SmartThermostat.set_target_temp t v).target_temp ∧
      (SmartThermostat.set_target_temp t v).target_temp ≤ 30 := by
  unfold SmartThermostat.set_target_temp
  split_ifs <;> simp_all

theorem target_temp_fold_range (t : SmartThermostat) (ws : List ℚ)
    (h : 15 ≤ t.target_temp ∧ t.target_temp ≤ 30) :
    15 ≤ (ws.foldl SmartThermostat.set_target_temp t).target_temp ∧
      (ws.foldl SmartThermostat.set_target_temp t).target_temp ≤ 30 := by
  induction ws generalizing t with
  | nil => simpa using h
  | cons w rest ih =>
    simp only [List.foldl_cons]
    exact ih _ (set_target_temp_range t w h)

theorem set_brightness_clamp_high (b : SmartBulb) (v : Int) (h : 100 < v) :
    (SmartBulb.set_brightness b v).brightness = 100 := by
  unfold SmartBulb.set_brightness
  split_ifs <;> simp_all
  omega

theorem set_brightness_clamp_low (b : SmartBulb) (v : Int) (h : v < 0) :
    (SmartBulb.set_brightness b v).brightness = 0 := by
  unfold SmartBulb.set_brightness
  split_ifs <;> simp_all <;> omega

theorem set_battery_level_clamp_high (c : SmartCamera) (v : Int)
    (h : 100 < v) : (SmartCamera.set_battery_level c v).battery_level = 100 := by
  unfold SmartCamera.set_battery_level
  split_ifs <;> simp_all
  omega

theorem set_battery_level_clamp_low (c : SmartCamera) (v : Int)
    (h : v < 0) : (SmartCamera.set_battery_level c v).battery_level = 0 := by
  unfold SmartCamera.set_battery_level
  split_ifs <;> simp_all <;> omega

theorem set_target_temp_reject (t : SmartThermostat) (v : ℚ)
    (h : ¬ (15 ≤ v ∧ v ≤ 30)) :
    (SmartThermostat.set_target_temp t v).target_temp = t.target_temp := by
  unfold SmartThermostat.set_target_temp
  rw [if_neg h]

theorem pyval_roundtrip (v : PyVal) : Json.toPyVal (PyVal.toJson v) = some v := by
  cases v <;> rfl

theorem payload_roundtrip (p : Payload) :
    parse_payload (p.map (fun kv => (kv.1, PyVal.toJson kv.2))) = some p := by
  induction p with
  | nil => rfl
  | cons kv rest ih =>
    simp only [List.map_cons, parse_payload, pyval_roundtrip, ih]

theorem filter_thermo (devices : List Device) (now : ℚ)
    (hw : ∀ d ∈ devices, Device.well_typed d) :
    (devices.map (fun d => Device.send_update d now)).filter
        (fun s => s.type == "THERMOSTAT") =
      (thermostats devices).map (fun t => SmartThermostat.send_update t now) := by
  induction devices with
  | nil => rfl
  | cons d rest ih =>
    have hd : Device.well_typed d := hw d (by simp)
    have hrest : ∀ x ∈ rest, Device.well_typed x := fun x hx => hw x (by simp [hx])
    have hih := ih hrest
    cases d with
    | bulb b =>
      simp only [Device.well_typed] at hd
      have hcond : ((Device.send_update (Device.bulb b) now).type ==
          "THERMOSTAT") = false := by
        show (b.device_type == "THERMOSTAT") = false
        rw [hd]
        rfl
      have hth : thermostats (Device.bulb b :: rest) = thermostats rest := rfl
      rw [List.map_cons, List.filter_cons, hcond, hth]
      simpa using hih
    | thermostat t =>
      simp only [Device.well_typed] at hd
      have hcond : ((Device.send_update (Device.thermostat t) now).type ==
          "THERMOSTAT") = true := by
        show (t.device_type == "THERMOSTAT") = true
        rw [hd]
        rfl
      have hth : thermostats (Device.thermostat t :: rest) =
          t :: thermostats rest := rfl
      rw [List.map_cons, List.filter_cons, hcond, hth, List.map_cons, hih]
      rfl
    | camera c =>
      simp only [Device.well_typed] at hd
      have hcond : ((Device.send_update (Device.camera c) now).type ==
          "THERMOSTAT") = false := by
        show (c.device_type == "THERMOSTAT") = false
        rw [hd]
        rfl
      have hth : thermostats (Device.camera c :: rest) = thermostats rest := rfl
      rw [List.map_cons, List.filter_cons, hcond, hth]
      simpa using hih

theorem sum_temps_thermo (ts : List SmartThermostat) (now : ℚ) (acc : ℚ) :
    sum_temps (ts.map (fun t => SmartThermostat.send_update t now)) acc =
      Except.ok (acc + (ts.map (fun t => t.current_temp)).sum) := by
  induction ts generalizing acc with
  | nil => simp [sum_temps]
  | cons t rest ih =>
    simp only [List.map_cons, sum_temps, List.sum_cons]
    show sum_temps (List.map (fun t => SmartThermostat.send_update t now) rest)
        (acc + t.current_temp) =
      Except.ok (acc + (t.current_temp +
        (List.map (fun t => t.current_temp) rest).sum))
    rw [ih, add_assoc]

/-! Claim theorems. -/

/-- Claim C1: under any sequence of property-setter calls starting from an
in-range value, a bulb brightness and a camera battery_level stay in
[0,100], with out-of-range writes clamped to the nearest bound, and a
thermostat target_temp stays in [15,30], with out-of-range writes rejected
and the previous value retained. -/
theorem C1_setter_range_invariants
    (b : SmartBulb) (vs : List Int)
    (hb : 0 ≤ b.brightness ∧ b.brightness ≤ 100)
    (c : SmartCamera) (us : List Int)
    (hc : 0 ≤ c.battery_level ∧ c.battery_level ≤ 100)
    (t : SmartThermostat) (ws : List ℚ)
    (ht : 15 ≤ t.target_temp ∧ t.target_temp ≤ 30) :
    (0 ≤ (vs.foldl SmartBulb.set_brightness b).brightness ∧
       (vs.foldl SmartBulb.set_brightness b).brightness ≤ 100)
  ∧ (0 ≤ (us.foldl SmartCamera.set_battery_level c).battery_level ∧
       (us.foldl SmartCamera.set_battery_level c).battery_level ≤ 100)
  ∧ (15 ≤ (ws.foldl SmartThermostat.set_target_temp t).target_temp ∧
       (ws.foldl SmartThermostat.set_target_temp t).target_temp ≤ 30)
  ∧ (∀ v : Int, 100 < v →
       (SmartBulb.set_brightness b v).brightness = 100 ∧
       (SmartCamera.set_battery_level c v).battery_level = 100)
  ∧ (∀ v : Int, v < 0 →
       (SmartBulb.set_brightness b v).brightness = 0 ∧
       (SmartCamera.set_battery_level c v).battery_level = 0)
  ∧ (∀ v : ℚ, ¬ (15 ≤ v ∧ v ≤ 30) →
       (SmartThermostat.set_target_temp t v).target_temp = t.target_temp) :=
  ⟨brightness_fold_range b vs hb,
   battery_fold_range c us hc,
   target_temp_fold_range t ws ht,
   fun v hv => ⟨set_brightness_clamp_high b v hv,
                set_battery_level_clamp_high c v hv⟩,
   fun v hv => ⟨set_brightness_clamp_low b v hv,
                set_battery_level_clamp_low c v hv⟩,
   fun v hv => set_target_temp_reject t v hv⟩

/-- Witness for C1 at the roster devices bulb_01, camera_01, term_01 and
concrete write sequences containing out-of-range values. -/
theorem C1_setter_range_invariants_witness :
    (0 ≤ (([150, -7] : List Int).foldl SmartBulb.set_brightness
        (SmartBulb.init "bulb_01" "Living Room Light" "Living Room" 80)).brightness ∧
       (([150, -7] : List Int).foldl SmartBulb.set_brightness
        (SmartBulb.init "bulb_01" "Living Room Light" "Living Room" 80)).brightness ≤ 100)
  ∧ (0 ≤ (([250, -1] : List Int).foldl SmartCamera.set_battery_level
        (SmartCamera.init "camera_01" "Front Gate Camera" "Front Gate" 78 true Option.none 0)).battery_level ∧
       (([250, -1] : List Int).foldl SmartCamera.set_battery_level
        (SmartCamera.init "camera_01" "Front Gate Camera" "Front Gate" 78 true Option.none 0)).battery_level ≤ 100)
  ∧ (15 ≤ (([50, 20] : List ℚ).foldl SmartThermostat.set_target_temp
        (SmartThermostat.init "term_01" "Bedroom Thermostat" "Bedroom" 23 22 40)).target_temp ∧
       (([50, 20] : List ℚ).foldl SmartThermostat.set_target_temp
        (SmartThermostat.init "term_01" "Bedroom Thermostat" "Bedroom" 23 22 40)).target_temp ≤ 30)
  ∧ (∀ v : Int, 100 < v →
       (SmartBulb.set_brightness
          (SmartBulb.init "bulb_01" "Living Room Light" "Living Room" 80) v).brightness = 100 ∧
       (SmartCamera.set_battery_level
          (SmartCamera.init "camera_01" "Front Gate Camera" "Front Gate" 78 true Option.none 0) v).battery_level = 100)
  ∧ (∀ v : Int, v < 0 →
       (SmartBulb.set_brightness
          (SmartBulb.init "bulb_01" "Living Room Light" "Living Room" 80) v).brightness = 0 ∧
       (SmartCamera.set_battery_level
          (SmartCamera.init "camera_01" "Front Gate Camera" "Front Gate" 78 true Option.none 0) v).battery_level = 0)
  ∧ (∀ v : ℚ, ¬ (15 ≤ v ∧ v ≤ 30) →
       (SmartThermostat.set_target_temp
          (SmartThermostat.init "term_01" "Bedroom Thermostat" "Bedroom" 23 22 40) v).target_temp =
        (SmartThermostat.init "term_01" "Bedroom Thermostat" "Bedroom" 23 22 40).target_temp) :=
  C1_setter_range_invariants
    (SmartBulb.init "bulb_01" "Living Room Light" "Living Room" 80)
    [150, -7] (by decide)
    (SmartCamera.init "camera_01" "Front Gate Camera" "Front Gate" 78 true Option.none 0)
    [250, -1] (by decide)
    (SmartThermostat.init "term_01" "Bedroom Thermostat" "Bedroom" 23 22 40)
    [50, 20] (by decide)

/-- Claim C4: execute_command implements the documented command semantics
on the variant that recognizes the command: TOGGLE flips is_on,
TRIGGER_COOLING subtracts 1.0 from current_temp, TRIGGER_HEATING adds 1.0,
TAKE_SNAPSHOT sets last_snapshot to the current time, LOW_BATTERY_WARNING
sets battery_level to 100. -/
theorem C4_command_semantics (b : SmartBulb) (t : SmartThermostat)
    (c : SmartCamera) (now : ℚ) :
    (SmartBulb.execute_command b "TOGGLE").is_on = !b.is_on
  ∧ (SmartThermostat.execute_command t "TRIGGER_COOLING").current_temp =
      t.current_temp - 1
  ∧ (SmartThermostat.execute_command t "TRIGGER_HEATING").current_temp =
      t.current_temp + 1
  ∧ (SmartCamera.execute_command c "TAKE_SNAPSHOT" now).last_snapshot = now
  ∧ (SmartCamera.execute_command c "LOW_BATTERY_WARNING" now).battery_level =
      100 :=
  ⟨rfl, rfl, rfl, rfl, rfl⟩

/-- Claim C5: a command a variant does not recognize, including commands of
the other variants and arbitrary strings, leaves the device completely
unchanged (and, the functions being total, raises nothing). -/
theorem C5_unknown_command_noop (b : SmartBulb) (t : SmartThermostat)
    (c : SmartCamera) (now : ℚ) (cmd : String) :
    (cmd ≠ "TOGGLE" → SmartBulb.execute_command b cmd = b)
  ∧ (cmd ≠ "TRIGGER_COOLING" → cmd ≠ "TRIGGER_HEATING" →
       SmartThermostat.execute_command t cmd = t)
  ∧ (cmd ≠ "TAKE_SNAPSHOT" → cmd ≠ "LOW_BATTERY_WARNING" →
       SmartCamera.execute_command c cmd now = c) := by
  refine ⟨fun h => ?_, fun h1 h2 => ?_, fun h1 h2 => ?_⟩
  · unfold SmartBulb.execute_command
    rw [if_neg h]
  · unfold SmartThermostat.execute_command
    rw [if_neg h1, if_neg h2]
  · unfold SmartCamera.execute_command
    rw [if_neg h1, if_neg h2]

/-- Witness for C5: a cooling command on a bulb, a toggle on a thermostat
and an arbitrary unrecognized string on a camera all leave the device
unchanged. -/
theorem C5_unknown_command_noop_witness :
    SmartBulb.execute_command
        (SmartBulb.init "bulb_01" "Living Room Light" "Living Room" 80)
        "TRIGGER_COOLING" =
      SmartBulb.init "bulb_01" "Living Room Light" "Living Room" 80
  ∧ SmartThermostat.execute_command
        (SmartThermostat.init "term_01" "Bedroom Thermostat" "Bedroom" 23 22 40)
        "TOGGLE" =
      SmartThermostat.init "term_01" "Bedroom Thermostat" "Bedroom" 23 22 40
  ∧ SmartCamera.execute_command
        (SmartCamera.init "camera_02" "Patio Camera" "Patio" 100 false Option.none 0)
        "FROBNICATE" 5 =
      SmartCamera.init "camera_02" "Patio Camera" "Patio" 100 false Option.none 0 :=
  ⟨(C5_unknown_command_noop
      (SmartBulb.init "bulb_01" "Living Room Light" "Living Room" 80)
      (SmartThermostat.init "term_01" "Bedroom Thermostat" "Bedroom" 23 22 40)
      (SmartCamera.init "camera_02" "Patio Camera" "Patio" 100 false Option.none 0)
      5 "TRIGGER_COOLING").1 (by decide),
   (C5_unknown_command_noop
      (SmartBulb.init "bulb_01" "Living Room Light" "Living Room" 80)
      (SmartThermostat.init "term_01" "Bedroom Thermostat" "Bedroom" 23 22 40)
      (SmartCamera.init "camera_02" "Patio Camera" "Patio" 100 false Option.none 0)
      5 "TOGGLE").2.1 (by decide) (by decide),
   (C5_unknown_command_noop
      (SmartBulb.init "bulb_01" "Living Room Light" "Living Room" 80)
      (SmartThermostat.init "term_01" "Bedroom Thermostat" "Bedroom" 23 22 40)
      (SmartCamera.init "camera_02" "Patio Camera" "Patio" 100 false Option.none 0)
      5 "FROBNICATE").2.2 (by decide) (by decide)⟩

/-- Claim C6: the constructors write the backing fields directly, so a
bulb can be created with brightness 150, a camera with battery_level 150
and a thermostat with target_temp 50, all outside the documented ranges,
while writing the same values through the property setters clamps or
rejects them. -/
theorem C6_constructor_bypasses_setters :
    100 < (SmartBulb.init "b1" "Bulb" "Room" 150).brightness
  ∧ 100 < (SmartCamera.init "c1" "Cam" "Room" 150 false Option.none 0).battery_level
  ∧ 30 < (SmartThermostat.init "t1" "Thermo" "Room" 20 50 40).target_temp
  ∧ (SmartBulb.set_brightness
       (SmartBulb.init "b1" "Bulb" "Room" 80) 150).brightness = 100
  ∧ (SmartCamera.set_battery_level
       (SmartCamera.init "c1" "Cam" "Room" 80 false Option.none 0) 150).battery_level = 100
  ∧ (SmartThermostat.set_target_temp
       (SmartThermostat.init "t1" "Thermo" "Room" 20 22 40) 50).target_temp = 22 := by
  refine ⟨by decide, by decide, by decide, by decide, by decide, by decide⟩

/-- Claim C8: a snapshot serialized to the JSON document of one log line
parses back to the very same device_id, type tag, timestamp and payload. -/
theorem C8_log_roundtrip (s : DeviceStatus) :
    parse_entry (dump_entry s) = some s := by
  cases s with
  | mk did ty ts p =>
    simp only [dump_entry, parse_entry, lookupField, String.reduceEq,
      reduceIte, payload_roundtrip]

/-- Claim C9 as amended: the roster main builds is fixed and has exactly 13
devices: 6 bulbs, 3 thermostats and 4 cameras. -/
theorem C9_roster_thirteen (now : ℚ) :
    (main_devices now).length = 13
  ∧ ((main_devices now).countP (fun d =>
       match d with | Device.bulb _ => true | _ => false)) = 6
  ∧ ((main_devices now).countP (fun d =>
       match d with | Device.thermostat _ => true | _ => false)) = 3
  ∧ ((main_devices now).countP (fun d =>
       match d with | Device.camera _ => true | _ => false)) = 4 :=
  ⟨rfl, rfl, rfl, rfl⟩

/-- Counterexample to claim C9 as stated: the roster does not have 12
devices. -/
theorem C9_roster_size_counterexample : ¬ ((main_devices 0).length = 12) := by
  decide

/-- Claim C2: on the statuses the devices emit, the decision function
returns exactly the decision table of the spec: a thermostat status giving
TRIGGER_COOLING when current_temp is above target_temp, TRIGGER_HEATING
when below and no command when equal, and a camera status giving
LOW_BATTERY_WARNING whenever battery_level is below 10 — taking precedence
over motion — else TAKE_SNAPSHOT on motion, else no command. -/
theorem C2_decision_table (did : String) (ts r : ℚ) (ct tt hum : ℚ)
    (bl : Int) (md : Bool) (ls : ℚ) :
    analytic_engine
        { device_id := did, type := "THERMOSTAT", timestamp := ts,
          payload := [ ("current_temp", PyVal.float ct),
                       ("target_temp", PyVal.float tt),
                       ("humidity", PyVal.float hum)] } r =
      Except.ok (if ct > tt then some "TRIGGER_COOLING"
                 else if ct < tt then some "TRIGGER_HEATING"
                 else Option.none)
  ∧ analytic_engine
        { device_id := did, type := "CAMERA", timestamp := ts,
          payload := [ ("battery_level", PyVal.int bl),
                       ("last_snapshot", PyVal.float ls),
                       ("motion_detected", PyVal.bool md)] } r =
      Except.ok (if bl < 10 then some "LOW_BATTERY_WARNING"
                 else if md then some "TAKE_SNAPSHOT"
                 else Option.none) := by
  constructor
  · simp only [analytic_engine, Payload.getNum, Payload.get,
      String.reduceEq, reduceIte]
    split_ifs <;> rfl
  · simp only [analytic_engine, Payload.getNum, Payload.get, truthyOpt,
      PyVal.truthy, String.reduceEq, reduceIte]
    norm_cast
    split_ifs <;> rfl

/-- Counterexample to claim C3 as stated: on one and the same BULB status
two evaluations of the decision function can differ, because the bulb
branch consults a fresh random draw (modelled by the extra argument). -/
theorem C3_purity_counterexample :
    analytic_engine
        { device_id := "bulb_01", type := "BULB", timestamp := 0,
          payload := [ ("brightness", PyVal.int 80),
                       ("is_on", PyVal.bool false)] } 0 ≠
      analytic_engine
        { device_id := "bulb_01", type := "BULB", timestamp := 0,
          payload := [ ("brightness", PyVal.int 80),
                       ("is_on", PyVal.bool false)] } 1 := by
  norm_num [analytic_engine]
  simp

/-- Claim C3 as amended: for every status whose type is not BULB (so for
all thermostat and camera statuses) the decision function is a pure
function of type and payload: its result does not depend on the random
draw, and on these statuses it draws nothing and mutates nothing. -/
theorem C3_determinism_non_bulb (s : DeviceStatus) (r1 r2 : ℚ)
    (h : s.type ≠ "BULB") :
    analytic_engine s r1 = analytic_engine s r2 := by
  unfold analytic_engine
  by_cases h1 : s.type = "THERMOSTAT"
  · simp [h1]
  · by_cases h2 : s.type = "CAMERA"
    · simp [h1, h2]
    · simp [h1, h2, h]

/-- Witness for the amended C3 at a concrete thermostat status and two
different random draws. -/
theorem C3_determinism_non_bulb_witness :
    analytic_engine
        { device_id := "term_01", type := "THERMOSTAT", timestamp := 0,
          payload := [ ("current_temp", PyVal.float 23),
                       ("target_temp", PyVal.float 22),
                       ("humidity", PyVal.float 40)] } 0 =
      analytic_engine
        { device_id := "term_01", type := "THERMOSTAT", timestamp := 0,
          payload := [ ("current_temp", PyVal.float 23),
                       ("target_temp", PyVal.float 22),
                       ("humidity", PyVal.float 40)] } 1 :=
  C3_determinism_non_bulb _ 0 1 (by decide)

/-- Claim C7: the filter over the map of statuses, restricted to the
thermostat statuses of the batch: with no thermostat in the batch no
metric is reported and no division happens; with at least one, the mean
current_temp over the thermostat statuses is reported. -/
theorem C7_average_metric (devices : List Device) (now : ℚ)
    (hw : ∀ d ∈ devices, Device.well_typed d) :
    (thermoTemps devices = [] →
       average_temp (devices.map (fun d => Device.send_update d now)) =
         Except.ok Option.none)
  ∧ (thermoTemps devices ≠ [] →
       average_temp (devices.map (fun d => Device.send_update d now)) =
         Except.ok (some ((thermoTemps devices).sum /
           ((thermoTemps devices).length : ℚ)))) := by
  have hfil := filter_thermo devices now hw
  unfold average_temp
  rw [hfil]
  constructor
  · intro h
    have hts : thermostats devices = [] := by
      unfold thermoTemps at h
      exact List.map_eq_nil_iff.mp h
    simp [hts]
  · intro h
    have hts : thermostats devices ≠ [] := by
      intro hc
      apply h
      unfold thermoTemps
      rw [hc]
      rfl
    have hne : ((thermostats devices).map
        (fun t => SmartThermostat.send_update t now)).isEmpty = false := by
      simpa [List.isEmpty_iff] using hts
    simp only [hne, Bool.false_eq_true, if_false, sum_temps_thermo, zero_add,
      List.length_map, thermoTemps]

/-- Witness for C7: an empty batch reports no metric; a batch with one
thermostat reports the mean. -/
theorem C7_average_metric_witness :
    average_temp (List.map (fun d => Device.send_update d 0)
        ([] : List Device)) = Except.ok Option.none
  ∧ average_temp (List.map (fun d => Device.send_update d 0)
        [Device.thermostat
          (SmartThermostat.init "term_01" "Bedroom Thermostat" "Bedroom" 23 22 40)]) =
      Except.ok (some
        ((thermoTemps [Device.thermostat
            (SmartThermostat.init "term_01" "Bedroom Thermostat" "Bedroom" 23 22 40)]).sum /
         ((thermoTemps [Device.thermostat
            (SmartThermostat.init "term_01" "Bedroom Thermostat" "Bedroom" 23 22 40)]).length : ℚ))) :=
  ⟨(C7_average_metric [] 0 (fun d hd => nomatch hd)).1 rfl,
   (C7_average_metric
      [Device.thermostat
        (SmartThermostat.init "term_01" "Bedroom Thermostat" "Bedroom" 23 22 40)] 0
      (fun d hd => by
        simp only [List.mem_singleton] at hd
        subst hd
        rfl)).2
     (by simp [thermoTemps, thermostats])⟩

/-- Claim C10: the decision function substitutes defaults for missing
payload keys: a camera status without battery_level defaults it to 100 and
can never yield LOW_BATTERY_WARNING; a thermostat status without
current_temp and target_temp defaults both to 0 and yields no command. -/
theorem C10_missing_key_defaults (s : DeviceStatus) (r : ℚ) :
    (s.type = "CAMERA" → Payload.get s.payload "battery_level" = Option.none →
       analytic_engine s r ≠ Except.ok (some "LOW_BATTERY_WARNING"))
  ∧ (s.type = "THERMOSTAT" →
       Payload.get s.payload "current_temp" = Option.none →
       Payload.get s.payload "target_temp" = Option.none →
       analytic_engine s r = Except.ok Option.none) := by
  constructor
  · intro h1 h2
    unfold analytic_engine
    simp only [h1, String.reduceEq, reduceIte, Payload.getNum, h2]
    norm_num
    split_ifs <;> simp
  · intro h1 h2 h3
    unfold analytic_engine
    simp only [h1, String.reduceEq, reduceIte, Payload.getNum, h2, h3]
    norm_num

/-- Witness for C10: a camera status lacking battery_level with motion
detected, and a thermostat status lacking both temperature keys. -/
theorem C10_missing_key_defaults_witness :
    analytic_engine
        { device_id := "camera_x", type := "CAMERA", timestamp := 0,
          payload := [ ("motion_detected", PyVal.bool true)] } 0 ≠
      Except.ok (some "LOW_BATTERY_WARNING")
  ∧ analytic_engine
        { device_id := "term_x", type := "THERMOSTAT", timestamp := 0,
          payload := [ ("humidity", PyVal.float 40)] } 0 =
      Except.ok Option.none :=
  ⟨(C10_missing_key_defaults
      { device_id := "camera_x", type := "CAMERA", timestamp := 0,
        payload := [ ("motion_detected", PyVal.bool true)] } 0).1 rfl rfl,
   (C10_missing_key_defaults
      { device_id := "term_x", type := "THERMOSTAT", timestamp := 0,
        payload := [ ("humidity", PyVal.float 40)] } 0).2 rfl rfl rfl⟩
